import Mathlib

/-!
Shallow embedding of the e-paper panel driver in
`src/node-epd-lib/src/epd7in5b-v2.js` and
`src/node-epd-lib/src/epd7in5b-v2-rpi-gpio.js`.

The drivers talk to the panel through `sendCommand` (DC line low, one SPI
byte framed by chip select) and `sendData`/`sendData2` (DC line high, SPI
bytes framed by chip select).  We record a protocol run as a list of
events at that framing granularity: a complete command transaction, a
complete data transaction, a raw GPIO write (used only by `reset`), a
millisecond delay, and a read of the busy input pin.  The busy pin is an
input, so every function that busy-waits is parameterised by the list of
values successive `digitalRead(busyPin)` calls return; a run in which the
poll loop never sees a nonzero level does not terminate, which the
embedding renders as `Option.none`.

All machine integers of the JavaScript source are nonnegative and small
(bytes, pixel coordinates), so they are embedded as `Nat`; the source
operations `Math.floor(a / b)`, `a % b`, `a >> 8` and `a ^ 0xff` become
`a / b`, `a % b`, `a / 256` and `a ^^^ 0xff` on `Nat`.
-/

namespace EPaper

/-- One observable hardware action of a driver run. -/
inductive Ev : Type
  | cmd (b : Nat)
  | data (bs : List Nat)
  | gpio (pin v : Nat)
  | delay (ms : Nat)
  | readPin (v : Nat)
  deriving DecidableEq, Repr

/-- The events of `readBusy()` (identical in both driver classes), given the
values the busy pin returns on successive reads.  The source first issues
the status command `0x71` and reads the pin, then loops issuing `0x71` and
re-reading while the value read is `0`; after a nonzero read it delays
200 ms and returns.  There is no statement between a zero read and the
next `sendCommand(0x71)`.  If every supplied read is `0` the loop has not
terminated, modelled as `none`. -/
def readBusyEvs : List Nat → Option (List Ev)
  | [] => none
  | v :: rest =>
    if v = 0 then
      (readBusyEvs rest).map (fun t => Ev.cmd 0x71 :: Ev.readPin v :: t)
    else
      some [Ev.cmd 0x71, Ev.readPin v, Ev.delay 200]

/-- The command/read pairs a poll loop over the given pin values produces
(one `0x71` status command immediately followed by one pin read per
value).  Used to state the shape of `readBusyEvs` traces. -/
def pollEvs : List Nat → List Ev
  | [] => []
  | v :: rest => Ev.cmd 0x71 :: Ev.readPin v :: pollEvs rest

/-- Whether an event is a timed delay. -/
def isDelay : Ev → Bool
  | Ev.delay _ => true
  | _ => false

/-- Whether an event drives the hardware (command byte, data bytes or a raw
GPIO write), as opposed to a delay or an input-pin read. -/
def isWrite : Ev → Bool
  | Ev.cmd _ => true
  | Ev.data _ => true
  | Ev.gpio _ _ => true
  | _ => false

/-- Number of hardware-write events in a trace. -/
def writeCount (t : List Ev) : Nat :=
  (t.filter isWrite).length

/-- The byte-for-byte result of the in-place loop
`for i: buf[i] ^= 0xff` run on a freshly copied buffer. -/
def invertLoop : List Nat → List Nat
  | [] => []
  | b :: rest => (b ^^^ 0xff) :: invertLoop rest

/-- The events of `reset()` on the default `EPDConfig` pin map
(`RST_PIN = 17`): reset high, 200 ms, low, 4 ms, high, 200 ms. -/
def resetEvs : List Ev :=
  [Ev.gpio 17 1, Ev.delay 200, Ev.gpio 17 0, Ev.delay 4,
   Ev.gpio 17 1, Ev.delay 200]

/-- A caller-supplied partial-update rectangle, in pixels. -/
structure Rect where
  xStart : Nat
  yStart : Nat
  xEnd : Nat
  yEnd : Nat
  deriving DecidableEq, Repr

/-- The mutable driver-object state the claims depend on: the constructor
sets `this.partFlag = 1`, and `display_Partial`/`displayPartial` clears it
on the first call that performs the all-white seed write. -/
structure St where
  partFlag : Nat
  deriving DecidableEq, Repr

/-- A raster image as the drivers see it: reported dimensions plus the
RGBA byte stream `getImageData` would return (4 bytes per pixel,
row-major).  Pixels outside the claim-relevant paths may be arbitrary,
so the stream is a total function on byte indices. -/
structure Image where
  width : Nat
  height : Nat
  data : Nat → Nat

/-- The sum `r + g + b` of the RGB channels of pixel `p` of an image.
The source compares `(r + g + b) / 3 >= 128` with exact (floating-point)
division on integer channel values, which is equivalent to
`r + g + b >= 384`; the embedding uses the sum form throughout. -/
def grayAt (img : Image) (p : Nat) : Nat :=
  img.data (4 * p) + img.data (4 * p + 1) + img.data (4 * p + 2)

/-- An 800x480 image whose RGBA stream is constantly 255: every pixel is
pure white (and fully opaque). -/
def allWhiteImage : Image := ⟨800, 480, fun _ => 255⟩

/-- A 100x100 all-white image: its dimensions match neither the panel nor
its transpose, so `getBuffer` takes the mismatch branch on it. -/
def badImage : Image := ⟨100, 100, fun _ => 255⟩

/-- A simple heap of byte buffers, for the frame conditions of `display`:
JavaScript `Buffer`/array values are references, so `Buffer.from` and
`Array.prototype.map` allocate a fresh buffer while the in-place
`buf[i] ^= 0xff` loop writes through a reference.  Buffers are addressed
by their index in the allocation list. -/
structure Heap where
  bufs : List (List Nat)
  deriving DecidableEq, Repr

/-- The contents of buffer reference `r`. -/
def Heap.read (h : Heap) (r : Nat) : List Nat :=
  h.bufs.getD r []

/-- Overwrite the contents of buffer reference `r`. -/
def Heap.write (h : Heap) (r : Nat) (b : List Nat) : Heap :=
  ⟨h.bufs.set r b⟩

/-- Allocate a fresh buffer holding `b`, returning the new heap and the
new reference (never equal to an existing reference). -/
def Heap.alloc (h : Heap) (b : List Nat) : Heap × Nat :=
  (⟨h.bufs ++ [b]⟩, h.bufs.length)

namespace EPD7in5bV2

/-- The x-coordinate adjustment at the top of `display_Partial`
(`src/node-epd-lib/src/epd7in5b-v2.js` lines 352-369), returning
`(adjustedXStart, adjustedXEnd)`.  Note the `+ 1` (one pixel, not one
byte) in the final branch, exactly as in the source. -/
def alignX (xStart xEnd : Nat) : Nat × Nat :=
  if (xStart % 8 + xEnd % 8 = 8 ∧ xEnd % 8 < xStart % 8) ∨
     xStart % 8 + xEnd % 8 = 0 ∨ (xEnd - xStart) % 8 = 0 then
    (xStart / 8 * 8, xEnd / 8 * 8)
  else
    (xStart / 8 * 8, if xEnd % 8 = 0 then xEnd / 8 * 8 else xEnd / 8 * 8 + 1)

/-- The rectangle-alignment step of `display_Partial` as a function on
rectangles: the x bounds are adjusted by `alignX`, the y bounds are left
untouched (the source never modifies `yStart`/`yEnd`). -/
def alignRect (r : Rect) : Rect :=
  { xStart := (alignX r.xStart r.xEnd).1
    yStart := r.yStart
    xEnd := (alignX r.xStart r.xEnd).2
    yEnd := r.yEnd }

/-- The partial-window setup events of `display_Partial`: partial-mode
entry `0x91`, resolution-setting command `0x90`, then the adjusted x
bounds and the raw y bounds, each as high byte then low byte, end
coordinates decremented, then the terminator byte `0x01`. -/
def windowEvs (axs axe yStart yEnd : Nat) : List Ev :=
  [Ev.cmd 0x91, Ev.cmd 0x90,
   Ev.data [axs / 256], Ev.data [axs % 256],
   Ev.data [(axe - 1) / 256], Ev.data [(axe - 1) % 256],
   Ev.data [yStart / 256], Ev.data [yStart % 256],
   Ev.data [(yEnd - 1) / 256], Ev.data [(yEnd - 1) % 256],
   Ev.data [0x01]]

/-- The events of `display(imageBlack, imageRed)`: RAM-write command
`0x10`, the copied black buffer after the in-place XOR loop, RAM-write
command `0x13`, the red buffer unmodified, refresh command `0x12`, a
100 ms delay, then the busy wait. -/
def display (imageBlack imageRed : List Nat) (reads : List Nat) :
    Option (List Ev) :=
  (readBusyEvs reads).map (fun rb =>
    Ev.cmd 0x10 :: Ev.data (invertLoop imageBlack) ::
    Ev.cmd 0x13 :: Ev.data imageRed ::
    Ev.cmd 0x12 :: Ev.delay 100 :: rb)

/-- The state update and events of
`display_Partial(image, xStart, yStart, xEnd, yEnd)`.  After the window
setup, if `this.partFlag === 1` the flag is cleared and an all-white
frame of `height * width` bytes (`width` in bytes of the adjusted span,
`height = yEnd - yStart`) is streamed one `sendData(0xff)` at a time
under command `0x10`; then the image is streamed under `0x13`, refresh
`0x12` is issued, and the driver delays 100 ms and busy-waits. -/
def display_Partial (st : St) (image : List Nat)
    (xStart yStart xEnd yEnd : Nat) (reads : List Nat) :
    Option (St × List Ev) :=
  let a := alignX xStart xEnd
  let width := (a.2 - a.1) / 8
  let height := yEnd - yStart
  (readBusyEvs reads).map (fun rb =>
    let seed : List Ev :=
      if st.partFlag = 1 then
        Ev.cmd 0x10 :: List.replicate (height * width) (Ev.data [0xff])
      else []
    let st1 : St := if st.partFlag = 1 then ⟨0⟩ else st
    (st1, windowEvs a.1 a.2 yStart yEnd ++ seed ++
          [Ev.cmd 0x13, Ev.data image, Ev.cmd 0x12, Ev.delay 100] ++ rb))

/-- The state update, events and return code of `init_part()`.  `initOk`
is whether `epdConfig.init()` succeeded (on failure the method returns
`-1` before any hardware action).  The body performs reset, panel
setting `0x00 0x1f`, power-on `0x04` with a 100 ms delay and busy wait,
then `0xe0 0x02`, `0xe5 0x6e` and the VCOM setting `0x50 0xa9 0x07`,
and returns `0`.  It never mentions `this.partFlag`. -/
def init_part (st : St) (initOk : Bool) (reads : List Nat) :
    Option (St × List Ev × Int) :=
  if initOk then
    (readBusyEvs reads).map (fun rb =>
      (st, resetEvs ++
           [Ev.cmd 0x00, Ev.data [0x1f], Ev.cmd 0x04, Ev.delay 100] ++ rb ++
           [Ev.cmd 0xe0, Ev.data [0x02], Ev.cmd 0xe5, Ev.data [0x6e],
            Ev.cmd 0x50, Ev.data [0xa9], Ev.data [0x07]], 0))
  else
    some (st, [], -1)

/-- The thresholding of `convertTo1Bit(canvas)`: the image is drawn onto
an 800x480 canvas and every pixel is replaced channel-wise by 255 if the
unweighted RGB average is at least 128 (`r + g + b >= 384`) and by 0
otherwise; the alpha channel is kept.  Drawing a canvas of the same size
at the origin copies it, so the pixel source is the input stream. -/
def convertTo1Bit (img : Image) : Image :=
  { width := 800
    height := 480
    data := fun i =>
      if i % 4 = 3 then img.data i
      else if 384 ≤ grayAt img (i / 4) then 255 else 0 }

/-- Modelled canvas geometry of `rotateImage(canvas, 90)`: the 480x800
input is drawn rotated 90 degrees about the centre of an 800x480 canvas,
which maps input pixel `(u, v)` to output pixel `(799 - v, u)`; the
embedding uses the exact pixel permutation (canvas resampling is treated
as nearest neighbour).  No claim exercises this path. -/
def rotateImage (img : Image) : Image :=
  { width := 800
    height := 480
    data := fun i =>
      let p := i / 4
      let x := p % 800
      let y := p / 800
      img.data (4 * ((799 - x) * 480 + y) + i % 4) }

/-- One iteration of the pixel-packing loop of `getBuffer` at flat pixel
index `p = y * 800 + x`: if the pixel of the converted image is white
(`(r + g + b) / 3 >= 128`), OR the bit `7 - p % 8` into byte `p / 8` of
the accumulating buffer. -/
def packStep (img : Image) (buf : List Nat) (p : Nat) : List Nat :=
  if 384 ≤ grayAt img p then
    buf.set (p / 8) (buf.getD (p / 8) 0 ||| 1 <<< (7 - p % 8))
  else buf

/-- The nested `for y / for x` packing loop of `getBuffer`, flattened
over the pixel index `p = y * 800 + x` (the loop order is exactly
increasing `p`), starting from the zero-filled buffer of
`Math.floor(800 / 8) * 480 = 48000` bytes. -/
def packLoop (img : Image) : List Nat :=
  (List.range (800 * 480)).foldl (packStep img) (List.replicate 48000 0)

/-- The return value of `getBuffer(image)`, paired with the list of
console warnings the call prints.  Dimensions `800x480` pack directly
after thresholding; transposed dimensions `480x800` are rotated first;
any other dimensions print `console.warn` and return a zero-filled
buffer of the correct size.  The final inversion loop `buffer[i] ^= 0xff`
flips the packed bytes to the panel convention (0 bits = white). -/
def getBuffer (image : Image) : List Nat × List String :=
  if image.width = 800 ∧ image.height = 480 then
    (invertLoop (packLoop (convertTo1Bit image)), [])
  else if image.width = 480 ∧ image.height = 800 then
    (invertLoop (packLoop (convertTo1Bit (rotateImage image))), [])
  else
    (List.replicate 48000 0x00,
     ["Wrong image dimensions: must be 800x480"])

/-- Heap-level model of `display(imageBlack, imageRed)`:
`Buffer.from(imageBlack)` allocates a copy, the XOR loop writes through
the copy reference, and the SPI writes read the copy and the untouched
red reference.  Returns the final heap and the trace. -/
def displayHeap (h : Heap) (blackRef redRef : Nat) (reads : List Nat) :
    Option (Heap × List Ev) :=
  let al := h.alloc (h.read blackRef)
  let h1 := al.1
  let copyRef := al.2
  let h2 := h1.write copyRef (invertLoop (h1.read copyRef))
  (readBusyEvs reads).map (fun rb =>
    (h2, Ev.cmd 0x10 :: Ev.data (h2.read copyRef) ::
         Ev.cmd 0x13 :: Ev.data (h2.read redRef) ::
         Ev.cmd 0x12 :: Ev.delay 100 :: rb))

end EPD7in5bV2

/- Model of the class `EPD7in5bV2RPiGPIO` of
`src/node-epd-lib/src/epd7in5b-v2-rpi-gpio.js` (the namespace drops the
capitalisation of the final three letters of the class name). -/
namespace EPD7in5bV2RPiGpio

/-- The partial-window setup events of `displayPartial` in the RPi-GPIO
variant (`src/node-epd-lib/src/epd7in5b-v2-rpi-gpio.js` lines 319-329):
the caller coordinates are NOT byte-aligned, and each coordinate is sent
low byte first (`sendData(x)` then `sendData(x >> 8)`).  `spiWrite` puts
each value in a `Buffer`, which truncates it modulo 256, hence the
`% 256` on both bytes. -/
def windowEvs (xStart xEnd yStart yEnd : Nat) : List Ev :=
  [Ev.cmd 0x91, Ev.cmd 0x90,
   Ev.data [xStart % 256], Ev.data [xStart / 256 % 256],
   Ev.data [(xEnd - 1) % 256], Ev.data [(xEnd - 1) / 256 % 256],
   Ev.data [yStart % 256], Ev.data [yStart / 256 % 256],
   Ev.data [(yEnd - 1) % 256], Ev.data [(yEnd - 1) / 256 % 256],
   Ev.data [0x01]]

/-- The events of the RPi-GPIO `display(imageBlack, imageRed)`: the black
bytes are re-inverted with `imageBlack.map((byte) => byte ^ 0xff)` into a
fresh array; otherwise identical to the main variant. -/
def display (imageBlack imageRed : List Nat) (reads : List Nat) :
    Option (List Ev) :=
  (readBusyEvs reads).map (fun rb =>
    Ev.cmd 0x10 :: Ev.data (imageBlack.map (fun b => b ^^^ 0xff)) ::
    Ev.cmd 0x13 :: Ev.data imageRed ::
    Ev.cmd 0x12 :: Ev.delay 100 :: rb)

/-- The state update and events of the RPi-GPIO
`displayPartial(image, xStart, yStart, xEnd, yEnd)`.  No alignment is
performed; `width = xEnd - xStart` is in PIXELS, so the first-call seed
streams `height * width` bytes of `0xff` with the pixel width, not the
byte width. -/
def displayPartial (st : St) (image : List Nat)
    (xStart yStart xEnd yEnd : Nat) (reads : List Nat) :
    Option (St × List Ev) :=
  let width := xEnd - xStart
  let height := yEnd - yStart
  (readBusyEvs reads).map (fun rb =>
    let seed : List Ev :=
      if st.partFlag = 1 then
        Ev.cmd 0x10 :: List.replicate (height * width) (Ev.data [0xff])
      else []
    let st1 : St := if st.partFlag = 1 then ⟨0⟩ else st
    (st1, windowEvs xStart xEnd yStart yEnd ++ seed ++
          [Ev.cmd 0x13, Ev.data image, Ev.cmd 0x12, Ev.delay 100] ++ rb))

/-- The state update, events and return code of the RPi-GPIO `initPart()`
(lines 99-124): the same command sequence as `init_part` of the main
variant, guarded by `epdConfig.moduleInit()`.  It never mentions
`this.partFlag`. -/
def initPart (st : St) (initOk : Bool) (reads : List Nat) :
    Option (St × List Ev × Int) :=
  if initOk then
    (readBusyEvs reads).map (fun rb =>
      (st, resetEvs ++
           [Ev.cmd 0x00, Ev.data [0x1f], Ev.cmd 0x04, Ev.delay 100] ++ rb ++
           [Ev.cmd 0xe0, Ev.data [0x02], Ev.cmd 0xe5, Ev.data [0x6e],
            Ev.cmd 0x50, Ev.data [0xa9], Ev.data [0x07]], 0))
  else
    some (st, [], -1)

/-- Heap-level model of the RPi-GPIO `display(imageBlack, imageRed)`:
`imageBlack.map((byte) => byte ^ 0xff)` allocates a fresh inverted
array and neither argument buffer is written. -/
def displayHeap (h : Heap) (blackRef redRef : Nat) (reads : List Nat) :
    Option (Heap × List Ev) :=
  let al := h.alloc ((h.read blackRef).map (fun b => b ^^^ 0xff))
  let h1 := al.1
  let invRef := al.2
  (readBusyEvs reads).map (fun rb =>
    (h1, Ev.cmd 0x10 :: Ev.data (h1.read invRef) ::
         Ev.cmd 0x13 :: Ev.data (h1.read redRef) ::
         Ev.cmd 0x12 :: Ev.delay 100 :: rb))

end EPD7in5bV2RPiGpio

/-! ## General lemmas about the embedded operations -/

theorem invertLoop_eq_map (l : List Nat) :
    invertLoop l = l.map (fun b => b ^^^ 0xff) := by
  induction l with
  | nil => rfl
  | cons b rest ih => simp [invertLoop, ih]

theorem invertLoop_replicate (n a : Nat) :
    invertLoop (List.replicate n a) = List.replicate n (a ^^^ 0xff) := by
  induction n with
  | zero => rfl
  | succ n ih => simp [List.replicate_succ, invertLoop, ih]

theorem pollEvs_filter_isDelay (l : List Nat) :
    (pollEvs l).filter isDelay = [] := by
  induction l with
  | nil => rfl
  | cons v rest ih => simp [pollEvs, isDelay, ih]

theorem cmd_mem_readBusyEvs (reads : List Nat) (rb : List Ev) (b : Nat)
    (h : readBusyEvs reads = some rb) (hb : Ev.cmd b ∈ rb) : b = 0x71 := by
  induction reads generalizing rb with
  | nil => simp [readBusyEvs] at h
  | cons v rest ih =>
    by_cases hv : v = 0
    · rw [readBusyEvs, if_pos hv] at h
      rcases Option.map_eq_some'.1 h with ⟨t, ht, hrb⟩
      subst hrb
      simp only [List.mem_cons] at hb
      rcases hb with hb | hb | hb
      · cases hb; rfl
      · cases hb
      · exact ih t ht hb
    · rw [readBusyEvs, if_neg hv] at h
      cases h
      simp only [List.mem_cons, List.not_mem_nil, or_false] at hb
      rcases hb with hb | hb | hb
      · cases hb; rfl
      · cases hb
      · cases hb

theorem EPD7in5bV2.alignX_fst (s e : Nat) :
    (EPD7in5bV2.alignX s e).1 = s / 8 * 8 := by
  unfold EPD7in5bV2.alignX
  split_ifs <;> rfl

theorem EPD7in5bV2.alignX_eq (s e : Nat) :
    EPD7in5bV2.alignX s e = (s / 8 * 8, e / 8 * 8) ∨
    (EPD7in5bV2.alignX s e = (s / 8 * 8, e / 8 * 8 + 1) ∧ e % 8 ≠ 0) := by
  unfold EPD7in5bV2.alignX
  split_ifs with h1 h2
  · left; rfl
  · left; rfl
  · right; exact ⟨rfl, h2⟩

theorem EPD7in5bV2.alignX_of_aligned (x y : Nat)
    (hx : x % 8 = 0) (hy : y % 8 = 0) :
    EPD7in5bV2.alignX x y = (x, y) := by
  unfold EPD7in5bV2.alignX
  rw [if_pos (Or.inr (Or.inl (by omega)))]
  have h1 : x / 8 * 8 = x := by omega
  have h2 : y / 8 * 8 = y := by omega
  rw [h1, h2]

theorem EPD7in5bV2.alignX_of_plus_one (x y : Nat)
    (hx : x % 8 = 0) (hy : y % 8 = 1) (hxy : x ≤ y) :
    EPD7in5bV2.alignX x y = (x, y) := by
  unfold EPD7in5bV2.alignX
  rw [if_neg (by omega), if_neg (by omega)]
  have h1 : x / 8 * 8 = x := by omega
  have h2 : y / 8 * 8 + 1 = y := by omega
  rw [h1, h2]

theorem writeCount_append (a b : List Ev) :
    writeCount (a ++ b) = writeCount a + writeCount b := by
  simp [writeCount, List.filter_append]

theorem EPD7in5bV2.writeCount_windowEvsV2 (a b c d : Nat) :
    writeCount (EPD7in5bV2.windowEvs a b c d) = 11 := by
  simp [writeCount, EPD7in5bV2.windowEvs, isWrite]

theorem EPD7in5bV2RPiGpio.writeCount_windowEvsRpi (a b c d : Nat) :
    writeCount (EPD7in5bV2RPiGpio.windowEvs a b c d) = 11 := by
  simp [writeCount, EPD7in5bV2RPiGpio.windowEvs, isWrite]

theorem EPD7in5bV2.display_Partial_eq (st : St) (image : List Nat)
    (s ys e ye : Nat) (reads : List Nat) (rb : List Ev)
    (h : readBusyEvs reads = some rb) :
    EPD7in5bV2.display_Partial st image s ys e ye reads =
      some (if st.partFlag = 1 then (⟨0⟩ : St) else st,
        EPD7in5bV2.windowEvs (EPD7in5bV2.alignX s e).1
            (EPD7in5bV2.alignX s e).2 ys ye ++
        (if st.partFlag = 1 then
          Ev.cmd 0x10 ::
            List.replicate
              ((ye - ys) *
                (((EPD7in5bV2.alignX s e).2 - (EPD7in5bV2.alignX s e).1) / 8))
              (Ev.data [0xff])
         else []) ++
        [Ev.cmd 0x13, Ev.data image, Ev.cmd 0x12, Ev.delay 100] ++ rb) := by
  unfold EPD7in5bV2.display_Partial
  rw [h]
  rfl

theorem EPD7in5bV2RPiGpio.displayPartial_eq (st : St) (image : List Nat)
    (s ys e ye : Nat) (reads : List Nat) (rb : List Ev)
    (h : readBusyEvs reads = some rb) :
    EPD7in5bV2RPiGpio.displayPartial st image s ys e ye reads =
      some (if st.partFlag = 1 then (⟨0⟩ : St) else st,
        EPD7in5bV2RPiGpio.windowEvs s e ys ye ++
        (if st.partFlag = 1 then
          Ev.cmd 0x10 ::
            List.replicate ((ye - ys) * (e - s)) (Ev.data [0xff])
         else []) ++
        [Ev.cmd 0x13, Ev.data image, Ev.cmd 0x12, Ev.delay 100] ++ rb) := by
  unfold EPD7in5bV2RPiGpio.displayPartial
  rw [h]
  rfl

theorem Heap.read_append_one (h : Heap) (b : List Nat) (r : Nat)
    (hr : r < h.bufs.length) : Heap.read ⟨h.bufs ++ [b]⟩ r = h.read r := by
  simp only [Heap.read]
  exact List.getD_append _ _ _ _ hr

theorem Heap.read_write_ne (h : Heap) (r1 r2 : Nat) (b : List Nat)
    (hne : r1 ≠ r2) : (h.write r1 b).read r2 = h.read r2 := by
  simp only [Heap.write, Heap.read, List.getD_eq_getElem?_getD]
  rw [List.getElem?_set_ne hne]

theorem Heap.read_alloc_write (h : Heap) (ba bw : List Nat) (r : Nat)
    (hr : r < h.bufs.length) :
    (Heap.write ⟨h.bufs ++ [ba]⟩ h.bufs.length bw).read r = h.read r := by
  rw [Heap.read_write_ne _ _ _ _ (by omega)]
  exact Heap.read_append_one h ba r hr

/-! ## Claims -/

/-- C1: for every black plane `b` and red plane `r`, `display(b, r)` (in
both driver variants) emits the RAM-write command `0x10` followed by the
bytes of `b` each XORed with `0xFF` exactly once, then the RAM-write
command `0x13` followed by the bytes of `r` unmodified, then the refresh
command `0x12`, a 100 ms delay, and the busy wait. -/
theorem display_emits_inverted_black_then_red
    (imageBlack imageRed reads : List Nat) (rb : List Ev)
    (h : readBusyEvs reads = some rb) :
    EPD7in5bV2.display imageBlack imageRed reads =
      some (Ev.cmd 0x10 ::
            Ev.data (imageBlack.map (fun x => x ^^^ 0xff)) ::
            Ev.cmd 0x13 :: Ev.data imageRed ::
            Ev.cmd 0x12 :: Ev.delay 100 :: rb) ∧
    EPD7in5bV2RPiGpio.display imageBlack imageRed reads =
      some (Ev.cmd 0x10 ::
            Ev.data (imageBlack.map (fun x => x ^^^ 0xff)) ::
            Ev.cmd 0x13 :: Ev.data imageRed ::
            Ev.cmd 0x12 :: Ev.delay 100 :: rb) := by
  constructor <;>
    simp [EPD7in5bV2.display, EPD7in5bV2RPiGpio.display, h, invertLoop_eq_map]

/-- Witness for C1 at concrete planes and a busy line that is ready at
the first poll. -/
theorem display_emits_inverted_black_then_red_witness :
    readBusyEvs [1] = some [Ev.cmd 0x71, Ev.readPin 1, Ev.delay 200] ∧
    EPD7in5bV2.display [0x00, 0xab] [0x12] [1] =
      some (Ev.cmd 0x10 ::
            Ev.data ([0x00, 0xab].map (fun x => x ^^^ 0xff)) ::
            Ev.cmd 0x13 :: Ev.data [0x12] ::
            Ev.cmd 0x12 :: Ev.delay 100 ::
            [Ev.cmd 0x71, Ev.readPin 1, Ev.delay 200]) :=
  ⟨by decide,
   (display_emits_inverted_black_then_red [0x00, 0xab] [0x12] [1]
      [Ev.cmd 0x71, Ev.readPin 1, Ev.delay 200] (by decide)).1⟩

/-- C2 counterexample: at the rectangle `(xStart 0, xEnd 10)` the
alignment step yields `(xStart 0, xEnd 9)`, which does not contain the
input rectangle (9 < 10) and whose width 9 is not a multiple of 8. -/
theorem align_not_containing_cex :
    EPD7in5bV2.alignRect ⟨0, 0, 10, 50⟩ = ⟨0, 0, 9, 50⟩ ∧
    (EPD7in5bV2.alignRect ⟨0, 0, 10, 50⟩).xEnd < 10 ∧
    ((EPD7in5bV2.alignRect ⟨0, 0, 10, 50⟩).xEnd -
       (EPD7in5bV2.alignRect ⟨0, 0, 10, 50⟩).xStart) % 8 ≠ 0 := by
  decide

/-- C2 (amended): for every rectangle `r` with `xStart ≤ xEnd`, the
alignment step of `display_Partial` yields a rectangle whose `xStart` is
a multiple of 8, whose x bounds never grow (so the result need not
contain `r`, and its width need not be a multiple of 8), whose y bounds
are unchanged, and alignment is idempotent. -/
theorem align_shrinks_and_idempotent (r : Rect) (h : r.xStart ≤ r.xEnd) :
    (EPD7in5bV2.alignRect r).xStart % 8 = 0 ∧
    (EPD7in5bV2.alignRect r).xStart ≤ r.xStart ∧
    (EPD7in5bV2.alignRect r).xEnd ≤ r.xEnd ∧
    (EPD7in5bV2.alignRect r).yStart = r.yStart ∧
    (EPD7in5bV2.alignRect r).yEnd = r.yEnd ∧
    EPD7in5bV2.alignRect (EPD7in5bV2.alignRect r) = EPD7in5bV2.alignRect r := by
  obtain ⟨s, ys, e, ye⟩ := r
  have hse : s ≤ e := h
  rcases EPD7in5bV2.alignX_eq s e with hx | ⟨hx, hne⟩
  · have hfix : EPD7in5bV2.alignX (s / 8 * 8) (e / 8 * 8) =
        (s / 8 * 8, e / 8 * 8) :=
      EPD7in5bV2.alignX_of_aligned _ _ (by omega) (by omega)
    refine ⟨?_, ?_, ?_, ?_, ?_, ?_⟩ <;>
      simp [EPD7in5bV2.alignRect, hx, hfix] <;> omega
  · have hfix : EPD7in5bV2.alignX (s / 8 * 8) (e / 8 * 8 + 1) =
        (s / 8 * 8, e / 8 * 8 + 1) :=
      EPD7in5bV2.alignX_of_plus_one _ _ (by omega) (by omega) (by omega)
    refine ⟨?_, ?_, ?_, ?_, ?_, ?_⟩ <;>
      simp [EPD7in5bV2.alignRect, hx, hfix] <;> omega

/-- Witness for C2 (amended) at the rectangle `(10, 0, 90, 50)`. -/
theorem align_shrinks_and_idempotent_witness :
    (EPD7in5bV2.alignRect ⟨10, 0, 90, 50⟩).xStart % 8 = 0 ∧
    (EPD7in5bV2.alignRect ⟨10, 0, 90, 50⟩).xStart ≤ 10 ∧
    (EPD7in5bV2.alignRect ⟨10, 0, 90, 50⟩).xEnd ≤ 90 ∧
    (EPD7in5bV2.alignRect ⟨10, 0, 90, 50⟩).yStart = 0 ∧
    (EPD7in5bV2.alignRect ⟨10, 0, 90, 50⟩).yEnd = 50 ∧
    EPD7in5bV2.alignRect (EPD7in5bV2.alignRect ⟨10, 0, 90, 50⟩) =
      EPD7in5bV2.alignRect ⟨10, 0, 90, 50⟩ :=
  align_shrinks_and_idempotent ⟨10, 0, 90, 50⟩ (by decide)

/-- C3: when `(xEnd - xStart)` is already a multiple of 8, the alignment
step floors `xStart` and `xEnd` each independently down to multiples
of 8 (both divided by 8 and re-multiplied), leaving the y bounds
unchanged. -/
theorem align_floor_when_width_multiple
    (s ys e ye : Nat) (_hse : s ≤ e) (hw : (e - s) % 8 = 0) :
    EPD7in5bV2.alignRect ⟨s, ys, e, ye⟩ =
      ⟨s / 8 * 8, ys, e / 8 * 8, ye⟩ := by
  have hx : EPD7in5bV2.alignX s e = (s / 8 * 8, e / 8 * 8) := by
    unfold EPD7in5bV2.alignX
    rw [if_pos (Or.inr (Or.inr hw))]
  simp [EPD7in5bV2.alignRect, hx]

/-- Witness for C3: the rectangle `(10, 0, 90, 50)` (width 80, a multiple
of 8) aligns to `(8, 0, 88, 50)` — both ends floored, not symmetric
growth. -/
theorem align_floor_when_width_multiple_witness :
    (10 : Nat) ≤ 90 ∧ (90 - 10) % 8 = 0 ∧
    EPD7in5bV2.alignRect ⟨10, 0, 90, 50⟩ = ⟨8, 0, 88, 50⟩ :=
  ⟨by decide, by decide,
   align_floor_when_width_multiple 10 0 90 50 (by decide) (by decide)⟩

/-- C5 counterexample: the poll loop of `readBusy` does NOT stop on a
zero read (with the pin stuck at 0 it never terminates), it stops
immediately on a read of 1, and between a zero read and the next `0x71`
status command there is no delay event at all — refuting both the
active-low convention (busy = 0 meaning ready) and the claimed fixed
wait before each re-issue. -/
theorem readBusy_polarity_cex :
    readBusyEvs [0] = none ∧
    readBusyEvs [1] = some [Ev.cmd 0x71, Ev.readPin 1, Ev.delay 200] ∧
    readBusyEvs [0, 1] =
      some [Ev.cmd 0x71, Ev.readPin 0, Ev.cmd 0x71, Ev.readPin 1,
            Ev.delay 200] ∧
    readBusyEvs [0, 1] ≠
      some [Ev.cmd 0x71, Ev.readPin 0, Ev.delay 200] := by
  decide

/-- C5 (amended): `readBusy` repeatedly issues the get-status command
`0x71` and reads the busy pin, looping while the value read is 0 (ready
is a NONZERO read, the opposite of the claimed active-low convention),
with no delay between poll iterations; after the first nonzero read a
fixed 200 ms settle delay is performed before returning, and that settle
delay is the only delay in the whole trace. -/
theorem readBusy_polls_until_nonzero
    (zs : List Nat) (v : Nat) (rest : List Nat)
    (hz : ∀ u ∈ zs, u = 0) (hv : v ≠ 0) :
    readBusyEvs (zs ++ v :: rest) =
      some (pollEvs (zs ++ [v]) ++ [Ev.delay 200]) ∧
    (pollEvs (zs ++ [v]) ++ [Ev.delay 200]).filter isDelay =
      [Ev.delay 200] := by
  constructor
  · induction zs with
    | nil =>
      rw [List.nil_append, readBusyEvs, if_neg hv]
      rfl
    | cons z zs ih =>
      have hz0 : z = 0 := hz z (List.mem_cons_self z zs)
      have ih2 := ih (fun u hu => hz u (List.mem_cons_of_mem z hu))
      rw [List.cons_append, readBusyEvs, if_pos hz0, ih2]
      simp [pollEvs, hz0]
  · rw [List.filter_append, pollEvs_filter_isDelay]
    rfl

/-- Witness for C5 (amended): one zero read followed by a 1 read. -/
theorem readBusy_polls_until_nonzero_witness :
    readBusyEvs ([0] ++ 1 :: []) =
      some (pollEvs ([0] ++ [1]) ++ [Ev.delay 200]) :=
  (readBusy_polls_until_nonzero [0] 1 [] (by decide) (by decide)).1

/-- C4 counterexample: the drivers track no session mode at all, so a
`displayPartial` call on a freshly constructed object (no `initPart`
ever called, `partFlag` still 1) returns no error value of any kind and
performs hardware writes — 20 command/data writes in the main variant
and 48 in the RPi-GPIO variant at the rectangle `(10, 0, 26, 2)` — not
zero as the claim requires. -/
theorem displayPartial_unchecked_writes_cex :
    (EPD7in5bV2.display_Partial ⟨1⟩ [] 10 0 26 2 [1]).map
        (fun x => writeCount x.2) = some 20 ∧
    (20 : Nat) ≠ 0 ∧
    (EPD7in5bV2RPiGpio.displayPartial ⟨1⟩ [] 10 0 26 2 [1]).map
        (fun x => writeCount x.2) = some 48 ∧
    (48 : Nat) ≠ 0 := by
  decide

/-- C4 (amended): the code has no mode tracking and no
`ProtocolStateError`: `displayPartial` in either variant, called in ANY
driver state (in particular before `initPart`), unconditionally performs
the partial-update hardware writes — whenever the busy wait terminates
the call succeeds, its trace begins with the partial-mode command `0x91`
and it contains at least one hardware write. -/
theorem displayPartial_no_state_check
    (st : St) (image : List Nat) (s ys e ye : Nat) (reads : List Nat)
    (rb : List Ev) (h : readBusyEvs reads = some rb) :
    (∃ st1 t,
      EPD7in5bV2.display_Partial st image s ys e ye reads =
        some (st1, t) ∧
      t.head? = some (Ev.cmd 0x91) ∧ 0 < writeCount t) ∧
    (∃ st1 t,
      EPD7in5bV2RPiGpio.displayPartial st image s ys e ye reads =
        some (st1, t) ∧
      t.head? = some (Ev.cmd 0x91) ∧ 0 < writeCount t) := by
  constructor
  · rw [EPD7in5bV2.display_Partial_eq st image s ys e ye reads rb h]
    refine ⟨_, _, rfl, rfl, ?_⟩
    rw [writeCount_append, writeCount_append, writeCount_append,
      EPD7in5bV2.writeCount_windowEvsV2]
    omega
  · rw [EPD7in5bV2RPiGpio.displayPartial_eq st image s ys e ye reads rb h]
    refine ⟨_, _, rfl, rfl, ?_⟩
    rw [writeCount_append, writeCount_append, writeCount_append,
      EPD7in5bV2RPiGpio.writeCount_windowEvsRpi]
    omega

/-- Witness for C4 (amended) on a fresh driver object and a small
rectangle. -/
theorem displayPartial_no_state_check_witness :
    (∃ st1 t,
      EPD7in5bV2.display_Partial ⟨1⟩ [] 10 0 26 2 [1] = some (st1, t) ∧
      t.head? = some (Ev.cmd 0x91) ∧ 0 < writeCount t) ∧
    (∃ st1 t,
      EPD7in5bV2RPiGpio.displayPartial ⟨1⟩ [] 10 0 26 2 [1] =
        some (st1, t) ∧
      t.head? = some (Ev.cmd 0x91) ∧ 0 < writeCount t) :=
  displayPartial_no_state_check ⟨1⟩ [] 10 0 26 2 [1]
    [Ev.cmd 0x71, Ev.readPin 1, Ev.delay 200] (by decide)

/-- C6 counterexample: the claim covers both driver classes, but in the
RPi-GPIO variant the first-call seed is NOT the full aligned rectangle
of `bytesPerRow * height` bytes: on rectangle `(10, 0, 26, 2)` (aligned
x span 8..24, 2 bytes per row, height 2) the aligned size is 4 bytes,
yet the RPi-GPIO first call streams 32 bytes `0xff` — the pixel width
`26 - 10 = 16` times the height, of the unaligned rectangle. -/
theorem rpi_seed_unaligned_cex :
    (EPD7in5bV2RPiGpio.displayPartial ⟨1⟩ [] 10 0 26 2 [1]).map
        (fun x => (x.2.filter (fun ev => ev == Ev.data [0xff])).length) =
      some 32 ∧
    (2 - 0) *
        (((EPD7in5bV2.alignX 10 26).2 - (EPD7in5bV2.alignX 10 26).1) / 8) =
      4 ∧
    (32 : Nat) ≠ 4 := by
  decide

/-- C6 (amended): within one driver object, in both variants the first
`displayPartial` call (seed flag still set) clears the flag and writes
an all-white seed — command `0x10` followed by bytes `0xff` — between
the window setup and the `0x13` data write, and every call with the
flag cleared emits no `0x10` command anywhere in its trace and leaves
the flag cleared; but only `EPD7in5bV2` seeds the full aligned
rectangle of `height * bytesPerRow` bytes, while the RPi-GPIO variant
seeds `height * pixelWidth` bytes of the unaligned rectangle. -/
theorem displayPartial_seed_once_both_variants
    (img : List Nat) (s ys e ye : Nat) (reads : List Nat) (rb : List Ev)
    (img2 : List Nat) (s2 ys2 e2 ye2 : Nat) (reads2 : List Nat)
    (rb2 : List Ev)
    (h : readBusyEvs reads = some rb)
    (h2 : readBusyEvs reads2 = some rb2) :
    EPD7in5bV2.display_Partial ⟨1⟩ img s ys e ye reads =
      some (⟨0⟩,
        EPD7in5bV2.windowEvs (EPD7in5bV2.alignX s e).1
            (EPD7in5bV2.alignX s e).2 ys ye ++
        (Ev.cmd 0x10 ::
          List.replicate
            ((ye - ys) *
              (((EPD7in5bV2.alignX s e).2 - (EPD7in5bV2.alignX s e).1) / 8))
            (Ev.data [0xff])) ++
        [Ev.cmd 0x13, Ev.data img, Ev.cmd 0x12, Ev.delay 100] ++ rb) ∧
    EPD7in5bV2.display_Partial ⟨0⟩ img2 s2 ys2 e2 ye2 reads2 =
      some (⟨0⟩,
        EPD7in5bV2.windowEvs (EPD7in5bV2.alignX s2 e2).1
            (EPD7in5bV2.alignX s2 e2).2 ys2 ye2 ++
        [Ev.cmd 0x13, Ev.data img2, Ev.cmd 0x12, Ev.delay 100] ++ rb2) ∧
    Ev.cmd 0x10 ∉
      EPD7in5bV2.windowEvs (EPD7in5bV2.alignX s2 e2).1
          (EPD7in5bV2.alignX s2 e2).2 ys2 ye2 ++
        [Ev.cmd 0x13, Ev.data img2, Ev.cmd 0x12, Ev.delay 100] ++ rb2 ∧
    EPD7in5bV2RPiGpio.displayPartial ⟨1⟩ img s ys e ye reads =
      some (⟨0⟩,
        EPD7in5bV2RPiGpio.windowEvs s e ys ye ++
        (Ev.cmd 0x10 ::
          List.replicate ((ye - ys) * (e - s)) (Ev.data [0xff])) ++
        [Ev.cmd 0x13, Ev.data img, Ev.cmd 0x12, Ev.delay 100] ++ rb) ∧
    EPD7in5bV2RPiGpio.displayPartial ⟨0⟩ img2 s2 ys2 e2 ye2 reads2 =
      some (⟨0⟩,
        EPD7in5bV2RPiGpio.windowEvs s2 e2 ys2 ye2 ++
        [Ev.cmd 0x13, Ev.data img2, Ev.cmd 0x12, Ev.delay 100] ++ rb2) ∧
    Ev.cmd 0x10 ∉
      EPD7in5bV2RPiGpio.windowEvs s2 e2 ys2 ye2 ++
        [Ev.cmd 0x13, Ev.data img2, Ev.cmd 0x12, Ev.delay 100] ++ rb2 := by
  refine ⟨?_, ?_, ?_, ?_, ?_, ?_⟩
  · rw [EPD7in5bV2.display_Partial_eq ⟨1⟩ img s ys e ye reads rb h]
    rfl
  · rw [EPD7in5bV2.display_Partial_eq ⟨0⟩ img2 s2 ys2 e2 ye2 reads2 rb2 h2]
    rfl
  · intro hmem
    simp only [List.append_assoc, List.mem_append, EPD7in5bV2.windowEvs,
      List.mem_cons, List.not_mem_nil, or_false] at hmem
    rcases hmem with hmem | hmem | hmem
    · rcases hmem with h10 | h10 | h10 | h10 | h10 | h10 | h10 | h10 |
        h10 | h10 | h10 <;> simp at h10
    · rcases hmem with h10 | h10 | h10 | h10 <;> simp at h10
    · have := cmd_mem_readBusyEvs reads2 rb2 0x10 h2 hmem
      omega
  · rw [EPD7in5bV2RPiGpio.displayPartial_eq ⟨1⟩ img s ys e ye reads rb h]
    rfl
  · rw [EPD7in5bV2RPiGpio.displayPartial_eq ⟨0⟩ img2 s2 ys2 e2 ye2 reads2
      rb2 h2]
    rfl
  · intro hmem
    simp only [List.append_assoc, List.mem_append,
      EPD7in5bV2RPiGpio.windowEvs, List.mem_cons, List.not_mem_nil,
      or_false] at hmem
    rcases hmem with hmem | hmem | hmem
    · rcases hmem with h10 | h10 | h10 | h10 | h10 | h10 | h10 | h10 |
        h10 | h10 | h10 <;> simp at h10
    · rcases hmem with h10 | h10 | h10 | h10 <;> simp at h10
    · have := cmd_mem_readBusyEvs reads2 rb2 0x10 h2 hmem
      omega

/-- Witness for C6 (amended): first call of the RPi-GPIO variant on the
rectangle `(10, 0, 26, 2)` (pixel width 16, height 2, hence a 32-byte
seed of the unaligned rectangle). -/
theorem displayPartial_seed_once_both_variants_witness :
    EPD7in5bV2RPiGpio.displayPartial ⟨1⟩ [] 10 0 26 2 [1] =
      some (⟨0⟩,
        EPD7in5bV2RPiGpio.windowEvs 10 26 0 2 ++
        (Ev.cmd 0x10 ::
          List.replicate ((2 - 0) * (26 - 10)) (Ev.data [0xff])) ++
        [Ev.cmd 0x13, Ev.data [], Ev.cmd 0x12, Ev.delay 100] ++
        [Ev.cmd 0x71, Ev.readPin 1, Ev.delay 200]) :=
  (displayPartial_seed_once_both_variants [] 10 0 26 2 [1]
      [Ev.cmd 0x71, Ev.readPin 1, Ev.delay 200]
      [] 10 0 26 2 [1] [Ev.cmd 0x71, Ev.readPin 1, Ev.delay 200]
      (by decide) (by decide)).2.2.2.1

/-- C7 counterexample: on a driver object whose seed flag is already
cleared (a `display_Partial` has run), calling `init_part` leaves the
flag cleared — it is NOT reset — and the next `display_Partial`
consequently performs no `0x10` seed write at all. -/
theorem initPart_flag_unchanged_cex :
    (EPD7in5bV2.init_part ⟨0⟩ true [1]).map (fun x => x.1) = some ⟨0⟩ ∧
    (EPD7in5bV2.init_part ⟨0⟩ true [1]).map (fun x => x.1) ≠ some ⟨1⟩ ∧
    (EPD7in5bV2.display_Partial ⟨0⟩ [] 10 0 26 2 [1]).map
        (fun x => (x.2.filter (fun ev => ev == Ev.cmd 0x10)).length) =
      some 0 := by
  decide

/-- C7 (amended): `init_part` (and the RPi-GPIO `initPart`) never touches
the seed flag: whatever state the driver object is in, the flag after
the call equals the flag before it.  The flag is set only by the
constructor, so the all-white seed happens at most once per object
lifetime, not once per `initPart`. -/
theorem initPart_preserves_partFlag
    (st : St) (initOk : Bool) (reads : List Nat)
    (a b : St × List Ev × Int)
    (h1 : EPD7in5bV2.init_part st initOk reads = some a)
    (h2 : EPD7in5bV2RPiGpio.initPart st initOk reads = some b) :
    a.1 = st ∧ b.1 = st := by
  unfold EPD7in5bV2.init_part at h1
  unfold EPD7in5bV2RPiGpio.initPart at h2
  cases initOk with
  | false =>
    simp only [Bool.false_eq_true, if_false, Option.some.injEq] at h1 h2
    rw [← h1, ← h2]
    exact ⟨rfl, rfl⟩
  | true =>
    rcases hr : readBusyEvs reads with _ | rb <;> rw [hr] at h1 h2
    · simp at h1
    · simp only [if_true, Option.map_some', Option.some.injEq] at h1 h2
      rw [← h1, ← h2]
      exact ⟨rfl, rfl⟩

/-- Witness for C7 (amended): the branch where `epdConfig` setup fails
returns `-1` with the state untouched. -/
theorem initPart_preserves_partFlag_witness :
    ((⟨0⟩, [], -1) : St × List Ev × Int).1 = (⟨0⟩ : St) ∧
    ((⟨0⟩, [], -1) : St × List Ev × Int).1 = (⟨0⟩ : St) :=
  initPart_preserves_partFlag ⟨0⟩ false [1] (⟨0⟩, [], -1) (⟨0⟩, [], -1)
    (by decide) (by decide)

/-- C9 counterexample: on the same rectangle, plane and busy-line run,
the two driver variants produce different event sequences, so they are
not interchangeable. -/
theorem variants_divergent_cex :
    EPD7in5bV2.display_Partial ⟨0⟩ [] 10 0 90 50 [1] ≠
      EPD7in5bV2RPiGpio.displayPartial ⟨0⟩ [] 10 0 90 50 [1] := by
  decide

/-- C9 (amended): the two `displayPartial` implementations diverge: on
rectangle `(10, 0, 90, 50)` the main variant byte-aligns the window to
x span 8..88 and sends each coordinate high byte first, while the
RPi-GPIO variant sends the raw coordinates 10..90 low byte first; and
the first-call all-white seed of the main variant streams
`bytesPerRow * height` bytes (4 on rectangle `(10, 0, 26, 2)`) while the
RPi-GPIO variant streams `pixelWidth * height` bytes (32 on the same
rectangle). -/
theorem variants_divergence_traces :
    EPD7in5bV2.display_Partial ⟨0⟩ [] 10 0 90 50 [1] =
      some (⟨0⟩,
        [Ev.cmd 0x91, Ev.cmd 0x90,
         Ev.data [0], Ev.data [8], Ev.data [0], Ev.data [87],
         Ev.data [0], Ev.data [0], Ev.data [0], Ev.data [49],
         Ev.data [0x01],
         Ev.cmd 0x13, Ev.data [], Ev.cmd 0x12, Ev.delay 100,
         Ev.cmd 0x71, Ev.readPin 1, Ev.delay 200]) ∧
    EPD7in5bV2RPiGpio.displayPartial ⟨0⟩ [] 10 0 90 50 [1] =
      some (⟨0⟩,
        [Ev.cmd 0x91, Ev.cmd 0x90,
         Ev.data [10], Ev.data [0], Ev.data [89], Ev.data [0],
         Ev.data [0], Ev.data [0], Ev.data [49], Ev.data [0],
         Ev.data [0x01],
         Ev.cmd 0x13, Ev.data [], Ev.cmd 0x12, Ev.delay 100,
         Ev.cmd 0x71, Ev.readPin 1, Ev.delay 200]) ∧
    (EPD7in5bV2.display_Partial ⟨1⟩ [] 10 0 26 2 [1]).map
        (fun x => (x.2.filter (fun ev => ev == Ev.data [0xff])).length) =
      some 4 ∧
    (EPD7in5bV2RPiGpio.displayPartial ⟨1⟩ [] 10 0 26 2 [1]).map
        (fun x => (x.2.filter (fun ev => ev == Ev.data [0xff])).length) =
      some 32 := by
  decide

theorem getD_mid (A B : List Nat) (b : Nat) :
    (A ++ b :: B).getD A.length 0 = b := by
  rw [List.getD_eq_getElem?_getD, List.getElem?_append_right (le_refl _)]
  simp

theorem set_mid (A B : List Nat) (b c : Nat) :
    (A ++ b :: B).set A.length c = A ++ c :: B := by
  rw [List.set_append_right _ _ (le_refl _)]
  simp

theorem EPD7in5bV2.packStep_mid (img : Image) (A B : List Nat)
    (b k i : Nat) (hi : i < 8) (hA : A.length = k)
    (hw : 384 ≤ grayAt img (8 * k + i)) :
    EPD7in5bV2.packStep img (A ++ b :: B) (8 * k + i) =
      A ++ (b ||| 1 <<< (7 - i)) :: B := by
  unfold EPD7in5bV2.packStep
  rw [if_pos hw]
  have h1 : (8 * k + i) / 8 = k := by omega
  have h2 : (8 * k + i) % 8 = i := by omega
  rw [h1, h2, ← hA, getD_mid, set_mid]

theorem EPD7in5bV2.seed_chunk (img : Image) (k : Nat)
    (hw : ∀ i, i < 8 → 384 ≤ grayAt img (8 * k + i))
    (A B : List Nat) (hA : A.length = k) :
    ((List.range 8).map (fun i => 8 * k + i)).foldl
        (EPD7in5bV2.packStep img) (A ++ 0 :: B) = A ++ 255 :: B := by
  rw [show (List.range 8).map (fun i => 8 * k + i) =
      [8 * k + 0, 8 * k + 1, 8 * k + 2, 8 * k + 3, 8 * k + 4, 8 * k + 5,
       8 * k + 6, 8 * k + 7] from rfl]
  simp only [List.foldl_cons, List.foldl_nil]
  rw [EPD7in5bV2.packStep_mid img A B _ k 0 (by omega) hA (hw 0 (by omega)),
      EPD7in5bV2.packStep_mid img A B _ k 1 (by omega) hA (hw 1 (by omega)),
      EPD7in5bV2.packStep_mid img A B _ k 2 (by omega) hA (hw 2 (by omega)),
      EPD7in5bV2.packStep_mid img A B _ k 3 (by omega) hA (hw 3 (by omega)),
      EPD7in5bV2.packStep_mid img A B _ k 4 (by omega) hA (hw 4 (by omega)),
      EPD7in5bV2.packStep_mid img A B _ k 5 (by omega) hA (hw 5 (by omega)),
      EPD7in5bV2.packStep_mid img A B _ k 6 (by omega) hA (hw 6 (by omega)),
      EPD7in5bV2.packStep_mid img A B _ k 7 (by omega) hA (hw 7 (by omega))]
  rfl

theorem EPD7in5bV2.pack_aux (img : Image)
    (hw : ∀ p, 384 ≤ grayAt img p) :
    ∀ k, k ≤ 48000 →
      (List.range (8 * k)).foldl (EPD7in5bV2.packStep img)
          (List.replicate 48000 0) =
        List.replicate k 255 ++ List.replicate (48000 - k) 0 := by
  intro k
  induction k with
  | zero =>
    intro _
    simp only [Nat.mul_zero, List.range_zero, List.foldl_nil,
      Nat.sub_zero, List.replicate_zero, List.nil_append]
  | succ k ih =>
    intro hk
    have h8 : 8 * (k + 1) = 8 * k + 8 := by ring
    rw [h8, List.range_add, List.foldl_append, ih (by omega)]
    have hsplit : List.replicate (48000 - k) (0 : Nat) =
        0 :: List.replicate (48000 - (k + 1)) 0 := by
      rw [show 48000 - k = (48000 - (k + 1)) + 1 by omega,
        List.replicate_succ]
    rw [hsplit,
      EPD7in5bV2.seed_chunk img k (fun i _ => hw (8 * k + i))
        (List.replicate k 255) (List.replicate (48000 - (k + 1)) 0)
        (List.length_replicate k 255),
      List.replicate_succ' k 255, List.append_assoc]
    rfl

theorem EPD7in5bV2.packLoop_allwhite (img : Image)
    (hw : ∀ p, 384 ≤ grayAt img p) :
    EPD7in5bV2.packLoop img = List.replicate 48000 255 := by
  unfold EPD7in5bV2.packLoop
  rw [show (800 * 480) = 8 * 48000 from rfl,
    EPD7in5bV2.pack_aux img hw 48000 (le_refl _)]
  simp only [Nat.sub_self, List.replicate_zero, List.append_nil]

theorem grayAt_allWhiteImage (q : Nat) : grayAt allWhiteImage q = 765 :=
  rfl

theorem EPD7in5bV2.convert_allwhite_data (i : Nat) (hi : i % 4 ≠ 3) :
    (EPD7in5bV2.convertTo1Bit allWhiteImage).data i = 255 := by
  have hdef : (EPD7in5bV2.convertTo1Bit allWhiteImage).data i =
      if i % 4 = 3 then allWhiteImage.data i
      else if 384 ≤ grayAt allWhiteImage (i / 4) then 255 else 0 := rfl
  have hc : 384 ≤ grayAt allWhiteImage (i / 4) := by
    rw [grayAt_allWhiteImage]
    omega
  rw [hdef, if_neg hi, if_pos hc]

theorem EPD7in5bV2.convert_allwhite_gray (p : Nat) :
    384 ≤ grayAt (EPD7in5bV2.convertTo1Bit allWhiteImage) p := by
  unfold grayAt
  rw [EPD7in5bV2.convert_allwhite_data (4 * p) (by omega),
      EPD7in5bV2.convert_allwhite_data (4 * p + 1) (by omega),
      EPD7in5bV2.convert_allwhite_data (4 * p + 2) (by omega)]
  omega

theorem EPD7in5bV2.getBuffer_allwhite :
    EPD7in5bV2.getBuffer allWhiteImage = (List.replicate 48000 0, []) := by
  unfold EPD7in5bV2.getBuffer
  rw [if_pos ⟨rfl, rfl⟩,
    EPD7in5bV2.packLoop_allwhite _ EPD7in5bV2.convert_allwhite_gray,
    invertLoop_replicate,
    show (255 ^^^ 0xff : Nat) = 0 from rfl]

/-- C10: `display` never mutates the caller buffers: in the heap model
of both variants, the XOR re-inversion acts on a freshly allocated copy
(`Buffer.from` in the main variant, `Array.prototype.map` in the
RPi-GPIO variant), so after the call the black and red buffers of the
caller hold exactly the bytes they held before. -/
theorem display_preserves_caller_buffers
    (h : Heap) (blackRef redRef : Nat) (reads reads2 : List Nat)
    (hb : blackRef < h.bufs.length) (hr : redRef < h.bufs.length)
    (h1 h2 : Heap) (t t2 : List Ev)
    (hrun : EPD7in5bV2.displayHeap h blackRef redRef reads =
      some (h1, t))
    (hrun2 : EPD7in5bV2RPiGpio.displayHeap h blackRef redRef reads2 =
      some (h2, t2)) :
    (h1.read blackRef = h.read blackRef ∧
     h1.read redRef = h.read redRef) ∧
    (h2.read blackRef = h.read blackRef ∧
     h2.read redRef = h.read redRef) := by
  constructor
  · rcases hrb : readBusyEvs reads with _ | rb <;>
      unfold EPD7in5bV2.displayHeap at hrun <;> rw [hrb] at hrun
    · simp at hrun
    · simp only [Option.map_some', Option.some.injEq, Prod.mk.injEq]
        at hrun
      obtain ⟨hh, -⟩ := hrun
      rw [← hh]
      simp only [Heap.alloc]
      exact ⟨Heap.read_alloc_write h _ _ _ hb,
             Heap.read_alloc_write h _ _ _ hr⟩
  · rcases hrb : readBusyEvs reads2 with _ | rb <;>
      unfold EPD7in5bV2RPiGpio.displayHeap at hrun2 <;> rw [hrb] at hrun2
    · simp at hrun2
    · simp only [Option.map_some', Option.some.injEq, Prod.mk.injEq]
        at hrun2
      obtain ⟨hh, -⟩ := hrun2
      rw [← hh]
      simp only [Heap.alloc]
      exact ⟨Heap.read_append_one h _ _ hb,
             Heap.read_append_one h _ _ hr⟩

/-- Witness for C10 on a concrete two-buffer heap. -/
theorem display_preserves_caller_buffers_witness :
    ((Heap.read ⟨[[1, 2], [3], [254, 253]]⟩ 0 =
        Heap.read ⟨[[1, 2], [3]]⟩ 0 ∧
      Heap.read ⟨[[1, 2], [3], [254, 253]]⟩ 1 =
        Heap.read ⟨[[1, 2], [3]]⟩ 1) ∧
     (Heap.read ⟨[[1, 2], [3], [254, 253]]⟩ 0 =
        Heap.read ⟨[[1, 2], [3]]⟩ 0 ∧
      Heap.read ⟨[[1, 2], [3], [254, 253]]⟩ 1 =
        Heap.read ⟨[[1, 2], [3]]⟩ 1)) :=
  display_preserves_caller_buffers ⟨[[1, 2], [3]]⟩ 0 1 [1] [1]
    (by decide) (by decide) ⟨[[1, 2], [3], [254, 253]]⟩
    ⟨[[1, 2], [3], [254, 253]]⟩
    [Ev.cmd 0x10, Ev.data [254, 253], Ev.cmd 0x13, Ev.data [3],
     Ev.cmd 0x12, Ev.delay 100, Ev.cmd 0x71, Ev.readPin 1, Ev.delay 200]
    [Ev.cmd 0x10, Ev.data [254, 253], Ev.cmd 0x13, Ev.data [3],
     Ev.cmd 0x12, Ev.delay 100, Ev.cmd 0x71, Ev.readPin 1, Ev.delay 200]
    (by decide) (by decide)

/-- C8 counterexample: on a 100x100 image `getBuffer` does return the
all-white 48000-byte plane (and prints a console warning), but no
`DimensionMismatch` condition reaches the caller: the value returned to
the caller is byte-for-byte identical to the encoding of a perfectly
valid all-white 800x480 frame, whose call prints nothing — so the caller
cannot observe any mismatch condition. -/
theorem getBuffer_mismatch_cex :
    EPD7in5bV2.getBuffer badImage =
      (List.replicate 48000 0x00,
       ["Wrong image dimensions: must be 800x480"]) ∧
    (EPD7in5bV2.getBuffer allWhiteImage).1 =
      (EPD7in5bV2.getBuffer badImage).1 ∧
    (EPD7in5bV2.getBuffer allWhiteImage).2 = [] := by
  have hbad : EPD7in5bV2.getBuffer badImage =
      (List.replicate 48000 0x00,
       ["Wrong image dimensions: must be 800x480"]) := by
    unfold EPD7in5bV2.getBuffer
    rw [if_neg (by decide), if_neg (by decide)]
  refine ⟨hbad, ?_, ?_⟩
  · rw [hbad, EPD7in5bV2.getBuffer_allwhite]
  · rw [EPD7in5bV2.getBuffer_allwhite]

/-- C8 (amended): for every image whose dimensions are neither
`(800, 480)` nor `(480, 800)`, `getBuffer` returns normally (no hard
fault) with the all-logical-white plane of `floor(800/8) * 480 = 48000`
zero bytes, printing a console warning; no `DimensionMismatch` condition
is signalled to the caller — the returned plane equals the encoding of a
valid all-white 800x480 frame. -/
theorem getBuffer_mismatch_blank_plane (img : Image)
    (hA : ¬(img.width = 800 ∧ img.height = 480))
    (hB : ¬(img.width = 480 ∧ img.height = 800)) :
    EPD7in5bV2.getBuffer img =
      (List.replicate 48000 0x00,
       ["Wrong image dimensions: must be 800x480"]) ∧
    (EPD7in5bV2.getBuffer img).1 =
      (EPD7in5bV2.getBuffer allWhiteImage).1 := by
  have hbad : EPD7in5bV2.getBuffer img =
      (List.replicate 48000 0x00,
       ["Wrong image dimensions: must be 800x480"]) := by
    unfold EPD7in5bV2.getBuffer
    rw [if_neg hA, if_neg hB]
  exact ⟨hbad, by rw [hbad, EPD7in5bV2.getBuffer_allwhite]⟩

/-- Witness for C8 (amended) at the 100x100 image. -/
theorem getBuffer_mismatch_blank_plane_witness :
    EPD7in5bV2.getBuffer badImage =
      (List.replicate 48000 0x00,
       ["Wrong image dimensions: must be 800x480"]) ∧
    (EPD7in5bV2.getBuffer badImage).1 =
      (EPD7in5bV2.getBuffer allWhiteImage).1 :=
  getBuffer_mismatch_blank_plane badImage (by decide) (by decide)

end EPaper
